import Mathlib

/-!
Shallow embedding of `src/agents/debate_agent.py` (class `DebateAgent`) from the
Multi-Agent-Quants repository, together with theorems checking the
natural-language specification against it.

Modelling conventions:
* Python strings are Lean `String`; `s in t` is `pyIn s t` (substring test),
  `str.lower()` is `pyLower`, `str.upper()` is `pyUpper`, `" ".join(xs)` is
  `String.intercalate " " xs`.
* Python floats are modelled as rationals (`ℚ`); all constants in the source
  (0.5, 0.1, 0.05, 0.02, 0.03) are exactly representable, so the arithmetic
  agrees with the reference values.
* The external text generator (`BaseAgent._create_prompt`, an LLM call) is an
  arbitrary function `gen : String → String → String` taking the role string
  and the content string.
* The external summarizer (`MemorySummaryAgent.summarize_speeches`) is an
  arbitrary function `summarize : List String → String`.
* The mutable fields `self.mid_term_memory` / `self.short_term_memory` are a
  `DebateState` threaded explicitly; `analyze` returns the result together
  with the updated state.
* `market_data` is only ever used through `market_data.get("trend", "flat")`
  and through its text rendering inside prompts, so it is modelled as an
  optional trend value plus an abstract rendered string.
-/

namespace DebateAgent

/-- Does `pat` match at the head of `l`? (helper for the substring test). -/
def matchesAt : List Char → List Char → Bool
  | [], _ => true
  | _ :: _, [] => false
  | a :: as, b :: bs => a == b && matchesAt as bs

/-- Does `pat` occur contiguously anywhere in `l`? -/
def occursIn (pat : List Char) : List Char → Bool
  | [] => matchesAt pat []
  | c :: cs => matchesAt pat (c :: cs) || occursIn pat cs

/-- The Python substring test `pat in text` (plain `in` on `str`). -/
def pyIn (pat text : String) : Bool :=
  occursIn pat.toList text.toList

/-- The Python `str.lower()` (ASCII-faithful), written over the character
list so that it evaluates inside the kernel. -/
def pyLower (s : String) : String := String.mk (s.data.map Char.toLower)

/-- The Python `str.upper()` (ASCII-faithful). -/
def pyUpper (s : String) : String := String.mk (s.data.map Char.toUpper)

/-- The Python builtin `min(a, b)` (returns the first argument on ties),
written with an executable comparison so that it evaluates in the kernel. -/
def pyMin (a b : ℚ) : ℚ := if b < a then b else a

/-- The Python builtin `max(a, b)` (returns the first argument on ties). -/
def pyMax (a b : ℚ) : ℚ := if a < b then b else a

/-- One transcript entry, the dict
`{"round": round_num + 1, "perspective": perspective_name, "arguments": response}`
appended in `DebateAgent._conduct_debate`. -/
structure RoundEntry where
  round : Nat
  perspective : String
  arguments : String
deriving DecidableEq

/-- The `market_data` dict as the agent uses it: `_calculate_confidence` reads
only `market_data.get("trend", "flat")`, and prompt construction renders the
whole dict to text (kept abstract as `rendered`). -/
structure MarketData where
  trend : Option String
  rendered : String
deriving DecidableEq

/-- `market_data.get("trend", "flat")`. -/
def MarketData.getTrend (market_data : MarketData) : String :=
  market_data.trend.getD "flat"

/-- The two mutable memory fields set up in `DebateAgent.__init__`
(`self.mid_term_memory = []`, `self.short_term_memory = []`). -/
structure DebateState where
  mid_term_memory : List String
  short_term_memory : List String
deriving DecidableEq

/-- The external text generator: `BaseAgent._create_prompt(role, content)`. -/
abbrev Gen := String → String → String

/-- The external summarizer call shape:
`MemorySummaryAgent.summarize_speeches(texts)`. -/
abbrev Summarizer := List String → String

/-- Modelled from the spec: `MemorySummaryAgent.add_to_short_term_memory`
(the file `agents/debate_memory.py` is not among the sources). Per spec §4.3
`promote_to_short_term(container, summary)` replaces the container's single
slot; the call site in `_conduct_debate` clears the container first, so the
promotion itself stores the summary, modelled as an append. -/
def add_to_short_term_memory (container : List String) (summary : String) :
    List String :=
  container ++ [summary]

/-- Modelled from the spec: `MemorySummaryAgent.add_to_mid_term_memory`
(the file `agents/debate_memory.py` is not among the sources). Per spec §4.3
`promote_to_mid_term(container, summary)` appends to the ordered sequence. -/
def add_to_mid_term_memory (container : List String) (summary : String) :
    List String :=
  container ++ [summary]

/-- `DebateAgent._get_mid_term_info`. -/
def get_mid_term_info (st : DebateState) : String :=
  if st.mid_term_memory = [] then "No mid-term memory recorded."
  else String.intercalate " | " st.mid_term_memory

/-- `DebateAgent._get_short_term_info` (`self.short_term_memory[-1]`). -/
def get_short_term_info (st : DebateState) : String :=
  match st.short_term_memory.getLast? with
  | none => "No short-term memory recorded."
  | some s => s

/-- The per-entry rendering inside `DebateAgent._format_previous_rounds`:
`f"Round {round} ({perspective.upper()}):\n{arguments}\n"`. -/
def formatRoundEntry (round_data : RoundEntry) : String :=
  "Round " ++ toString round_data.round ++ " (" ++
    pyUpper round_data.perspective ++ "):\n" ++ round_data.arguments ++ "\n"

/-- `DebateAgent._format_previous_rounds`. -/
def format_previous_rounds (debate_rounds : List RoundEntry) : String :=
  if debate_rounds = [] then "No previous arguments."
  else String.intercalate "\n" (debate_rounds.map formatRoundEntry)

/-- Per-entry stance classification, the loop body of
`DebateAgent._extract_stances`. -/
def stanceOf (arguments : String) : String :=
  let text := pyLower arguments
  if pyIn "bullish" text then "bullish"
  else if pyIn "bearish" text then "bearish"
  else "neutral"

/-- `DebateAgent._extract_stances`. -/
def extract_stances (round_data : List RoundEntry) : List String :=
  round_data.map (fun r => stanceOf r.arguments)

/-- `self.debate_rounds = 3` from `DebateAgent.__init__`. -/
def debateRoundsLimit : Nat := 3

/-- One element of `self.roles` from `DebateAgent.__init__`. -/
structure Role where
  name : String
  description : String
deriving DecidableEq

/-- The fundamental analyst persona from `DebateAgent.__init__` (the
triple-quoted description keeps the literal newlines and indentation of the
source; \x27 is the apostrophe). -/
def fundamentalRole : Role :=
  { name := "fundamental",
    description := "You are a Fundamental Analyst focusing on macroeconomic indicators,\n                                    company financials, sector trends, and other fundamental factors that\n                                    influence the asset\x27s intrinsic value. \n                                    Your goal is to provide arguments about the proposed action from a fundamental perspective.\n                                    You can choose your stance (Bullish or Bearish) freely each round.\n                                    Argue briefly and directly." }

/-- The technical analyst persona from `DebateAgent.__init__`. -/
def technicalRole : Role :=
  { name := "technical",
    description := "You are a Technical Analyst focusing on price trends, chart patterns,\n                                    technical indicators, and volume analysis.\n                                    Your goal is to provide arguments about the proposed action from a technical perspective.\n                                    You can choose your stance (Bullish or Bearish) freely each round.\n                                    Argue briefly and directly." }

/-- The risk analyst persona from `DebateAgent.__init__`. -/
def riskRole : Role :=
  { name := "risk",
    description := "You are a Risk Analyst focusing on potential risks, uncertainties, \n                                    volatility, regulatory changes, and market sentiment shifts.\n                                    Your goal is to provide arguments about the proposed action from a risk management perspective.\n                                    You can choose your stance (Bullish or Bearish) freely each round.\n                                    Argue briefly and directly." }

/-- `self.roles` from `DebateAgent.__init__`, in declared order. -/
def roles : List Role := [fundamentalRole, technicalRole, riskRole]

/-- The role string built in `_conduct_debate`: the full persona description
on round 0, the short reminder on later rounds. -/
def roleString (round_num : Nat) (role_info : Role) : String :=
  if round_num = 0 then role_info.description
  else "You are the " ++ role_info.name ++
    " analyst. Continue focusing on your domain. Remember you can choose Bullish or Bearish freely."

/-- The `content` f-string built in `_conduct_debate`, with the literal
newlines and 16-space indentation of the source template. -/
def contentString (round_num : Nat) (perspective_name : String)
    (market_data : MarketData) (proposed_action : String)
    (st : DebateState) (debate_rounds : List RoundEntry) : String :=
  "\n                Round " ++ toString (round_num + 1) ++ " of debate (" ++
    pyUpper perspective_name ++ "):\n                \n                Market Data:\n                " ++
    market_data.rendered ++ "\n\n                Proposed Action:\n                " ++
    proposed_action ++ "\n\n                Mid-term Memory (accumulated):\n                " ++
    get_mid_term_info st ++ "\n\n                Short-term Memory (last round only):\n                " ++
    get_short_term_info st ++ "\n\n                Previous Arguments:\n                " ++
    format_previous_rounds debate_rounds ++
    "\n\n                Instructions:\n                - At the start of your argument, explicitly state your stance for this round as either Bullish or Bearish.\n                - Present your viewpoint (4-5 sentences).\n                - You can react to previous arguments if they exist, or establish a stance on the action.\n                - If no differing opinions are found, you may also choose a stance and clarify it.\n                - Keep it concise and debate-like.\n                "

/-- The inner per-persona loop of one round of `_conduct_debate`: build role
and content, call the generator, and collect the three new round entries
(`round_results`). The memory state and prior transcript feed into the
prompts but are not modified here. -/
def conductRound (gen : Gen) (market_data : MarketData)
    (proposed_action : String) (st : DebateState)
    (debate_rounds : List RoundEntry) (round_num : Nat) : List RoundEntry :=
  roles.map (fun role_info =>
    { round := round_num + 1,
      perspective := role_info.name,
      arguments := gen (roleString round_num role_info)
        (contentString round_num role_info.name market_data proposed_action
          st debate_rounds) })

/-- `len(set(stances))`: the number of distinct stance labels. -/
def distinctCount (stances : List String) : Nat := stances.dedup.length

/-- One iteration of the `for round_num in range(self.debate_rounds)` loop of
`_conduct_debate`: generate the round, extend the transcript, check
convergence (`len(set(stances)) <= 1` → break, memory untouched), otherwise
summarize the round and update short- and mid-term memory. Returns the new
transcript, the new memory state, and whether the loop breaks. -/
def debateStep (gen : Gen) (summarize : Summarizer) (market_data : MarketData)
    (proposed_action : String) (round_num : Nat)
    (debate_rounds : List RoundEntry) (st : DebateState) :
    List RoundEntry × DebateState × Bool :=
  let round_results :=
    conductRound gen market_data proposed_action st debate_rounds round_num
  let debate_rounds := debate_rounds ++ round_results
  let stances := extract_stances round_results
  if distinctCount stances ≤ 1 then (debate_rounds, st, true)
  else
    let last_round_num := ((round_results.getLast?).map RoundEntry.round).getD 0
    let this_round_data :=
      (round_results.filter (fun r => r.round == last_round_num)).map
        (fun r => r.arguments)
    let round_summary := summarize this_round_data
    let short_term_memory := add_to_short_term_memory [] round_summary
    let mid_term_memory :=
      add_to_mid_term_memory st.mid_term_memory round_summary
    (debate_rounds,
     { mid_term_memory := mid_term_memory,
       short_term_memory := short_term_memory }, false)

/-- The loop of `_conduct_debate`, driven by the remaining iteration count
(`fuel`) of `range(self.debate_rounds)`. -/
def conductDebateAux (gen : Gen) (summarize : Summarizer)
    (market_data : MarketData) (proposed_action : String) :
    Nat → Nat → List RoundEntry → DebateState →
      List RoundEntry × DebateState
  | 0, _, debate_rounds, st => (debate_rounds, st)
  | fuel + 1, round_num, debate_rounds, st =>
    let step := debateStep gen summarize market_data proposed_action
      round_num debate_rounds st
    if step.2.2 then (step.1, step.2.1)
    else conductDebateAux gen summarize market_data proposed_action fuel
      (round_num + 1) step.1 step.2.1

/-- `DebateAgent._conduct_debate`: the local `debate_rounds` list starts
empty, the memory state is the instance state as the call finds it (the
method does not reset it). -/
def conduct_debate (gen : Gen) (summarize : Summarizer)
    (market_data : MarketData) (proposed_action : String) (st : DebateState) :
    List RoundEntry × DebateState :=
  conductDebateAux gen summarize market_data proposed_action
    debateRoundsLimit 0 [] st

/-- The role string of `DebateAgent._synthesize_debate` (literal whitespace
of the source triple-quoted string). -/
def synthesizeRoleString : String :=
  "You are a senior market strategist tasked with synthesizing insights \n                    from three specialized analysts (fundamental, technical, and risk). \n                    Combine their perspectives into a balanced and actionable final analysis."

/-- The `content` f-string of `DebateAgent._synthesize_debate`, with the
literal newlines and 8-space indentation of the source template. -/
def synthesizeContentString (st : DebateState)
    (debate_rounds : List RoundEntry) : String :=
  "\n        Synthesize the following debate rounds into a final analysis:\n\n        Mid-term Memory (accumulated from all rounds):\n        " ++
    get_mid_term_info st ++
    "\n\n        Short-term Memory (just last round):\n        " ++
    get_short_term_info st ++ "\n        \n        Debate History:\n        " ++
    format_previous_rounds debate_rounds ++
    "\n        \n        Provide a balanced analysis addressing:\n        1. Key Points of Agreement\n        2. Major Points of Contention\n        3. Risk-Reward Assessment\n        4. Final Recommendation\n        "

/-- `DebateAgent._synthesize_debate`: one generator call on the synthesis
role and content. -/
def synthesize_debate (gen : Gen) (st : DebateState)
    (debate_rounds : List RoundEntry) : String :=
  gen synthesizeRoleString (synthesizeContentString st debate_rounds)

/-- The combined per-persona argument texts of `_calculate_confidence`:
`" ".join([r for r in debate_rounds if r.perspective == name]).lower()`. -/
def personaText (name : String) (debate_rounds : List RoundEntry) : String :=
  pyLower (String.intercalate " "
    ((debate_rounds.filter (fun r => r.perspective == name)).map
      (fun r => r.arguments)))

/-- The helper `check_pairwise(text_a, text_b)` nested in
`_calculate_confidence`: local agreement and disagreement counts from fixed
phrase co-occurrences. -/
def check_pairwise (text_a text_b : String) : Nat × Nat :=
  let local_agreements : Nat := 0
  let local_disagreements : Nat := 0
  let local_agreements :=
    if pyIn "mild increase" text_a && pyIn "mild increase" text_b then
      local_agreements + 1
    else local_agreements
  let counts :=
    if pyIn "low risk" text_a && pyIn "low risk" text_b then
      (local_agreements + 1, local_disagreements)
    else if (pyIn "low risk" text_a && pyIn "high risk" text_b) ||
        (pyIn "high risk" text_a && pyIn "low risk" text_b) then
      (local_agreements, local_disagreements + 1)
    else (local_agreements, local_disagreements)
  let local_agreements := counts.1
  let local_disagreements := counts.2
  let local_disagreements :=
    if pyIn "downward pressure" text_a && pyIn "upward momentum" text_b then
      local_disagreements + 1
    else if pyIn "downward pressure" text_b && pyIn "upward momentum" text_a
      then local_disagreements + 1
    else local_disagreements
  (local_agreements, local_disagreements)

/-- `DebateAgent._calculate_confidence` before its final clamp line
(`confidence = max(0.0, min(1.0, confidence))`); floats are modelled as
rationals. -/
def calculate_confidence_raw (debate_rounds : List RoundEntry)
    (market_data : MarketData) : ℚ :=
  let confidence : ℚ := 5 / 10
  let trend := market_data.getTrend
  let confidence :=
    if trend = "up" then confidence + 1 / 10
    else if trend = "down" then confidence - 5 / 100
    else confidence - 2 / 100
  let all_fundamental_text := personaText "fundamental" debate_rounds
  let all_technical_text := personaText "technical" debate_rounds
  let all_risk_text := personaText "risk" debate_rounds
  let ft := check_pairwise all_fundamental_text all_technical_text
  let fr := check_pairwise all_fundamental_text all_risk_text
  let tr := check_pairwise all_technical_text all_risk_text
  let agreements := ft.1 + fr.1 + tr.1
  let disagreements := ft.2 + fr.2 + tr.2
  let confidence := confidence + (agreements : ℚ) * (5 / 100)
  let confidence := confidence - (disagreements : ℚ) * (5 / 100)
  let confidence :=
    if (pyIn "moving average crossing above price" all_fundamental_text &&
          pyIn "moving average crossing above price" all_technical_text) ||
        (pyIn "moving average crossing above price" all_fundamental_text &&
          pyIn "moving average crossing above price" all_risk_text) ||
        (pyIn "moving average crossing above price" all_technical_text &&
          pyIn "moving average crossing above price" all_risk_text) then
      confidence + 3 / 100
    else confidence
  confidence

/-- `DebateAgent._calculate_confidence`: the raw heuristic value clamped by
`max(0.0, min(1.0, confidence))`. -/
def calculate_confidence (debate_rounds : List RoundEntry)
    (market_data : MarketData) : ℚ :=
  pyMax 0 (pyMin 1 (calculate_confidence_raw debate_rounds market_data))

/-- The `data` dict passed to `DebateAgent.analyze`: `market_data` and
`proposed_action` are read with `.get(..., {})` defaults, `timestamp` with a
`None` default. -/
structure AnalyzeInput where
  market_data : MarketData
  proposed_action : String
  timestamp : Option String
deriving DecidableEq

/-- The `analysis_result` dict returned by `DebateAgent.analyze`. -/
structure AnalysisResult where
  debate_analysis : String
  debate_rounds : List RoundEntry
  timestamp : Option String
  confidence_score : ℚ
deriving DecidableEq

/-- `DebateAgent.analyze`: runs `_conduct_debate`, `_synthesize_debate` and
`_calculate_confidence` and assembles the result dict. The instance memory
state is threaded in and out; `analyze` itself never writes the short- or
mid-term memory fields (only `_conduct_debate` updates them, and nothing
resets them). `BaseAgent.save_to_memory` touches the separate base-agent
memory only, so it is not part of this state. -/
def analyze (gen : Gen) (summarize : Summarizer) (data : AnalyzeInput)
    (st : DebateState) : AnalysisResult × DebateState :=
  let market_data := data.market_data
  let proposed_action := data.proposed_action
  let debateOut := conduct_debate gen summarize market_data proposed_action st
  let debate_results := debateOut.1
  let final_analysis := synthesize_debate gen debateOut.2 debate_results
  ({ debate_analysis := final_analysis,
     debate_rounds := debate_results,
     timestamp := data.timestamp,
     confidence_score := calculate_confidence debate_results market_data },
   debateOut.2)

/-! ### Analysis-side helper definitions

These name intermediate quantities of `_calculate_confidence` and the loop so
that the theorems below can speak about them; `calculate_confidence_raw`
itself stays the faithful inline transcription above. -/

/-- The memory state set up by `DebateAgent.__init__`
(`self.mid_term_memory = []`, `self.short_term_memory = []`). -/
def initialState : DebateState :=
  { mid_term_memory := [], short_term_memory := [] }

/-- The trend branch of `_calculate_confidence` in isolation: the amount
added to the base confidence for the given market data. -/
def trendContribution (market_data : MarketData) : ℚ :=
  if market_data.getTrend = "up" then 1 / 10
  else if market_data.getTrend = "down" then -(5 / 100)
  else -(2 / 100)

/-- The per-persona filtered argument list of `_calculate_confidence`
(`[r for r in debate_rounds if r. perspective == name]` projected to the
arguments), before joining and lower-casing. -/
def personaArguments (name : String) (debate_rounds : List RoundEntry) :
    List String :=
  (debate_rounds.filter (fun r => r.perspective == name)).map
    (fun r => r.arguments)

/-- Total agreement count summed over the three persona pairs. -/
def agreementsTotal (debate_rounds : List RoundEntry) : Nat :=
  (check_pairwise (personaText "fundamental" debate_rounds)
    (personaText "technical" debate_rounds)).1 +
  (check_pairwise (personaText "fundamental" debate_rounds)
    (personaText "risk" debate_rounds)).1 +
  (check_pairwise (personaText "technical" debate_rounds)
    (personaText "risk" debate_rounds)).1

/-- Total disagreement count summed over the three persona pairs. -/
def disagreementsTotal (debate_rounds : List RoundEntry) : Nat :=
  (check_pairwise (personaText "fundamental" debate_rounds)
    (personaText "technical" debate_rounds)).2 +
  (check_pairwise (personaText "fundamental" debate_rounds)
    (personaText "risk" debate_rounds)).2 +
  (check_pairwise (personaText "technical" debate_rounds)
    (personaText "risk" debate_rounds)).2

/-- The technical-consistency bonus condition of `_calculate_confidence`:
the phrase appears in at least two of the three per-persona texts. -/
def techBonusApplies (debate_rounds : List RoundEntry) : Bool :=
  (pyIn "moving average crossing above price"
      (personaText "fundamental" debate_rounds) &&
    pyIn "moving average crossing above price"
      (personaText "technical" debate_rounds)) ||
  (pyIn "moving average crossing above price"
      (personaText "fundamental" debate_rounds) &&
    pyIn "moving average crossing above price"
      (personaText "risk" debate_rounds)) ||
  (pyIn "moving average crossing above price"
      (personaText "technical" debate_rounds) &&
    pyIn "moving average crossing above price"
      (personaText "risk" debate_rounds))

/-- Everything `_calculate_confidence` adds beyond base and trend: the
pairwise agreement and disagreement deltas and the technical bonus. -/
def textContribution (debate_rounds : List RoundEntry) : ℚ :=
  (agreementsTotal debate_rounds : ℚ) * (5 / 100) -
    (disagreementsTotal debate_rounds : ℚ) * (5 / 100) +
    (if techBonusApplies debate_rounds then 3 / 100 else 0)

/-- The argument texts of one generated round (`this_round_data` in
`_conduct_debate`). -/
def roundArgs (gen : Gen) (market_data : MarketData) (proposed_action : String)
    (st : DebateState) (debate_rounds : List RoundEntry) (round_num : Nat) :
    List String :=
  (conductRound gen market_data proposed_action st debate_rounds
    round_num).map (fun r => r.arguments)

/-- The first loop iteration of a debate that starts from fresh memory. -/
def step1 (gen : Gen) (summarize : Summarizer) (market_data : MarketData)
    (proposed_action : String) : List RoundEntry × DebateState × Bool :=
  debateStep gen summarize market_data proposed_action 0 [] initialState

/-- The second loop iteration of a debate that starts from fresh memory,
continuing from `step1`. -/
def step2 (gen : Gen) (summarize : Summarizer) (market_data : MarketData)
    (proposed_action : String) : List RoundEntry × DebateState × Bool :=
  debateStep gen summarize market_data proposed_action 1
    (step1 gen summarize market_data proposed_action).1
    (step1 gen summarize market_data proposed_action).2.1

/-! ### Concrete inputs used by witnesses and counterexamples -/

/-- A generator that answers each persona prompt of a round with a distinct
stance (the round-header marker `of debate (NAME)` occurs only in the prompt
of that persona for that round), and flags whether the prompt still shows the
empty mid-term-memory sentinel. Produces a debate that never converges. -/
def genM : Gen := fun _ content =>
  if pyIn "of debate (FUNDAMENTAL)" content then
    (if pyIn "No mid-term memory recorded." content then "Bullish fresh"
     else "Bullish stale")
  else if pyIn "of debate (TECHNICAL)" content then "Bearish view"
  else "No view"

/-- A generator whose every answer contains the word bullish. -/
def genBull : Gen := fun _ _ => "Clearly Bullish today"

/-- A constant summarizer. -/
def summConst : Summarizer := fun _ => "summary"

/-- An uptrending market input. -/
def mdUp : MarketData := { trend := some "up", rendered := "price 100" }

/-- A market input with a trend value that is neither up nor down. -/
def mdFlat : MarketData := { trend := some "flat", rendered := "price 100" }

/-- A market input whose dict has no trend key at all. -/
def mdNoTrend : MarketData := { trend := none, rendered := "price 100" }

/-- A concrete `analyze` input. -/
def dataUp : AnalyzeInput :=
  { market_data := mdUp, proposed_action := "buy 10 shares",
    timestamp := some "2024-01-01" }

/-- A first `analyze` call on a freshly constructed agent. -/
def firstRun : AnalysisResult × DebateState :=
  analyze genM summConst dataUp initialState

/-- A second `analyze` call on the same agent instance: its debate loop
starts from the state `firstRun` left behind. -/
def secondRun : AnalysisResult × DebateState :=
  analyze genM summConst dataUp firstRun.2

/-- Transcript whose two fundamental entries only form the phrase
`mild increase` after they are joined in transcript order. -/
def tSplitPhrase : List RoundEntry :=
  [{ round := 1, perspective := "fundamental", arguments := "mild" },
   { round := 1, perspective := "fundamental", arguments := "increase" },
   { round := 1, perspective := "technical", arguments := "mild increase" }]

/-- `tSplitPhrase` with its two fundamental entries transposed (a
permutation of the transcript). -/
def tSplitPhraseSwapped : List RoundEntry :=
  [{ round := 1, perspective := "fundamental", arguments := "increase" },
   { round := 1, perspective := "fundamental", arguments := "mild" },
   { round := 1, perspective := "technical", arguments := "mild increase" }]

/-- A transcript and a reordering of it that keeps each persona internal
order (entries of different personas swapped). -/
def tPair1 : List RoundEntry :=
  [{ round := 1, perspective := "fundamental", arguments := "low risk ahead" },
   { round := 1, perspective := "technical", arguments := "low risk too" }]

/-- `tPair1` with the two entries (of different personas) swapped. -/
def tPair2 : List RoundEntry :=
  [{ round := 1, perspective := "technical", arguments := "low risk too" },
   { round := 1, perspective := "fundamental", arguments := "low risk ahead" }]

/-- A small concrete transcript for the formatting witness. -/
def tFormat : List RoundEntry :=
  [{ round := 1, perspective := "fundamental", arguments := "Alpha" },
   { round := 2, perspective := "risk", arguments := "Beta" }]

/-! ### Helper lemmas -/

set_option maxRecDepth 400000

theorem check_pairwise_fst_le (text_a text_b : String) :
    (check_pairwise text_a text_b).1 ≤ 2 := by
  unfold check_pairwise
  dsimp only
  split_ifs <;> simp

theorem check_pairwise_snd_le (text_a text_b : String) :
    (check_pairwise text_a text_b).2 ≤ 2 := by
  unfold check_pairwise
  dsimp only
  split_ifs <;> simp

theorem agreementsTotal_le (debate_rounds : List RoundEntry) :
    agreementsTotal debate_rounds ≤ 6 := by
  unfold agreementsTotal
  have h1 := check_pairwise_fst_le (personaText "fundamental" debate_rounds)
    (personaText "technical" debate_rounds)
  have h2 := check_pairwise_fst_le (personaText "fundamental" debate_rounds)
    (personaText "risk" debate_rounds)
  have h3 := check_pairwise_fst_le (personaText "technical" debate_rounds)
    (personaText "risk" debate_rounds)
  omega

theorem disagreementsTotal_le (debate_rounds : List RoundEntry) :
    disagreementsTotal debate_rounds ≤ 6 := by
  unfold disagreementsTotal
  have h1 := check_pairwise_snd_le (personaText "fundamental" debate_rounds)
    (personaText "technical" debate_rounds)
  have h2 := check_pairwise_snd_le (personaText "fundamental" debate_rounds)
    (personaText "risk" debate_rounds)
  have h3 := check_pairwise_snd_le (personaText "technical" debate_rounds)
    (personaText "risk" debate_rounds)
  omega

theorem calculate_confidence_raw_eq (debate_rounds : List RoundEntry)
    (market_data : MarketData) :
    calculate_confidence_raw debate_rounds market_data =
      5 / 10 + trendContribution market_data +
        textContribution debate_rounds := by
  unfold calculate_confidence_raw trendContribution textContribution
    agreementsTotal disagreementsTotal techBonusApplies
  dsimp only
  split_ifs <;> push_cast <;> ring

theorem textContribution_bounds (debate_rounds : List RoundEntry) :
    -(3 / 10) ≤ textContribution debate_rounds ∧
      textContribution debate_rounds ≤ 33 / 100 := by
  have hA := agreementsTotal_le debate_rounds
  have hD := disagreementsTotal_le debate_rounds
  have hA6 : (agreementsTotal debate_rounds : ℚ) ≤ 6 := by exact_mod_cast hA
  have hD6 : (disagreementsTotal debate_rounds : ℚ) ≤ 6 := by exact_mod_cast hD
  have hA0 : (0 : ℚ) ≤ (agreementsTotal debate_rounds : ℚ) :=
    Nat.cast_nonneg _
  have hD0 : (0 : ℚ) ≤ (disagreementsTotal debate_rounds : ℚ) :=
    Nat.cast_nonneg _
  unfold textContribution
  constructor <;> split_ifs <;> linarith

theorem trendContribution_bounds (market_data : MarketData) :
    -(5 / 100) ≤ trendContribution market_data ∧
      trendContribution market_data ≤ 1 / 10 := by
  unfold trendContribution
  split_ifs <;> norm_num

theorem calculate_confidence_raw_lower (debate_rounds : List RoundEntry)
    (market_data : MarketData) :
    3 / 20 ≤ calculate_confidence_raw debate_rounds market_data := by
  rw [calculate_confidence_raw_eq]
  have h1 := trendContribution_bounds market_data
  have h2 := textContribution_bounds debate_rounds
  linarith [h1.1, h2.1]

theorem calculate_confidence_raw_upper (debate_rounds : List RoundEntry)
    (market_data : MarketData) :
    calculate_confidence_raw debate_rounds market_data ≤ 93 / 100 := by
  rw [calculate_confidence_raw_eq]
  have h1 := trendContribution_bounds market_data
  have h2 := textContribution_bounds debate_rounds
  linarith [h1.2, h2.2]

theorem calculate_confidence_eq_raw (debate_rounds : List RoundEntry)
    (market_data : MarketData) :
    calculate_confidence debate_rounds market_data =
      calculate_confidence_raw debate_rounds market_data := by
  have hlo := calculate_confidence_raw_lower debate_rounds market_data
  have hhi := calculate_confidence_raw_upper debate_rounds market_data
  unfold calculate_confidence pyMax pyMin
  split_ifs <;> linarith

theorem conductRound_length (gen : Gen) (market_data : MarketData)
    (proposed_action : String) (st : DebateState)
    (debate_rounds : List RoundEntry) (round_num : Nat) :
    (conductRound gen market_data proposed_action st debate_rounds
      round_num).length = 3 := rfl

theorem debateStep_fst (gen : Gen) (summarize : Summarizer)
    (market_data : MarketData) (proposed_action : String) (round_num : Nat)
    (debate_rounds : List RoundEntry) (st : DebateState) :
    (debateStep gen summarize market_data proposed_action round_num
        debate_rounds st).1 =
      debate_rounds ++
        conductRound gen market_data proposed_action st debate_rounds
          round_num := by
  unfold debateStep
  dsimp only
  split <;> rfl

theorem debateStep_converged (gen : Gen) (summarize : Summarizer)
    (market_data : MarketData) (proposed_action : String) (round_num : Nat)
    (debate_rounds : List RoundEntry) (st : DebateState)
    (h : distinctCount (extract_stances (conductRound gen market_data
      proposed_action st debate_rounds round_num)) ≤ 1) :
    debateStep gen summarize market_data proposed_action round_num
        debate_rounds st =
      (debate_rounds ++
        conductRound gen market_data proposed_action st debate_rounds
          round_num, st, true) := by
  unfold debateStep
  dsimp only
  rw [if_pos h]

theorem debateStep_diverged (gen : Gen) (summarize : Summarizer)
    (market_data : MarketData) (proposed_action : String) (round_num : Nat)
    (debate_rounds : List RoundEntry) (st : DebateState)
    (h : ¬ distinctCount (extract_stances (conductRound gen market_data
      proposed_action st debate_rounds round_num)) ≤ 1) :
    debateStep gen summarize market_data proposed_action round_num
        debate_rounds st =
      (debate_rounds ++
        conductRound gen market_data proposed_action st debate_rounds
          round_num,
       { mid_term_memory := st.mid_term_memory ++
           [summarize (roundArgs gen market_data proposed_action st
             debate_rounds round_num)],
         short_term_memory :=
           [summarize (roundArgs gen market_data proposed_action st
             debate_rounds round_num)] },
       false) := by
  unfold debateStep
  dsimp only
  rw [if_neg h]
  unfold roundArgs conductRound roles
  simp [add_to_short_term_memory, add_to_mid_term_memory]

theorem debateStep_converged_iff (gen : Gen) (summarize : Summarizer)
    (market_data : MarketData) (proposed_action : String) (round_num : Nat)
    (debate_rounds : List RoundEntry) (st : DebateState) :
    (debateStep gen summarize market_data proposed_action round_num
        debate_rounds st).2.2 = true ↔
      distinctCount (extract_stances (conductRound gen market_data
        proposed_action st debate_rounds round_num)) ≤ 1 := by
  unfold debateStep
  dsimp only
  split <;> simp_all

theorem debateStep_of_not_converged (gen : Gen) (summarize : Summarizer)
    (market_data : MarketData) (proposed_action : String) (round_num : Nat)
    (debate_rounds : List RoundEntry) (st : DebateState)
    (h : (debateStep gen summarize market_data proposed_action round_num
      debate_rounds st).2.2 = false) :
    debateStep gen summarize market_data proposed_action round_num
        debate_rounds st =
      (debate_rounds ++
        conductRound gen market_data proposed_action st debate_rounds
          round_num,
       { mid_term_memory := st.mid_term_memory ++
           [summarize (roundArgs gen market_data proposed_action st
             debate_rounds round_num)],
         short_term_memory :=
           [summarize (roundArgs gen market_data proposed_action st
             debate_rounds round_num)] },
       false) := by
  apply debateStep_diverged
  intro hc
  rw [(debateStep_converged_iff gen summarize market_data proposed_action
    round_num debate_rounds st).2 hc] at h
  exact absurd h (by simp)

theorem conductDebateAux_succ (gen : Gen) (summarize : Summarizer)
    (market_data : MarketData) (proposed_action : String) (fuel : Nat)
    (round_num : Nat) (debate_rounds : List RoundEntry) (st : DebateState) :
    conductDebateAux gen summarize market_data proposed_action (fuel + 1)
        round_num debate_rounds st =
      if (debateStep gen summarize market_data proposed_action round_num
          debate_rounds st).2.2 then
        ((debateStep gen summarize market_data proposed_action round_num
            debate_rounds st).1,
         (debateStep gen summarize market_data proposed_action round_num
            debate_rounds st).2.1)
      else
        conductDebateAux gen summarize market_data proposed_action fuel
          (round_num + 1)
          (debateStep gen summarize market_data proposed_action round_num
            debate_rounds st).1
          (debateStep gen summarize market_data proposed_action round_num
            debate_rounds st).2.1 := rfl

theorem conductDebateAux_converged (gen : Gen) (summarize : Summarizer)
    (market_data : MarketData) (proposed_action : String) (fuel : Nat)
    (round_num : Nat) (debate_rounds : List RoundEntry) (st : DebateState)
    (h : distinctCount (extract_stances (conductRound gen market_data
      proposed_action st debate_rounds round_num)) ≤ 1) :
    conductDebateAux gen summarize market_data proposed_action (fuel + 1)
        round_num debate_rounds st =
      (debate_rounds ++
        conductRound gen market_data proposed_action st debate_rounds
          round_num, st) := by
  rw [conductDebateAux_succ,
    debateStep_converged gen summarize market_data proposed_action round_num
      debate_rounds st h]
  simp

theorem conductDebateAux_length (gen : Gen) (summarize : Summarizer)
    (market_data : MarketData) (proposed_action : String) :
    ∀ (fuel round_num : Nat) (debate_rounds : List RoundEntry)
      (st : DebateState),
      (conductDebateAux gen summarize market_data proposed_action fuel
        round_num debate_rounds st).1.length ≤
        debate_rounds.length + 3 * fuel := by
  intro fuel
  induction fuel with
  | zero => intro round_num debate_rounds st; simp [conductDebateAux]
  | succ fuel ih =>
    intro round_num debate_rounds st
    rw [conductDebateAux_succ]
    have hlen : (debateStep gen summarize market_data proposed_action
        round_num debate_rounds st).1.length = debate_rounds.length + 3 := by
      rw [debateStep_fst]
      simp [conductRound_length]
    by_cases hc : (debateStep gen summarize market_data proposed_action
        round_num debate_rounds st).2.2
    · rw [if_pos hc]
      dsimp only
      omega
    · rw [if_neg hc]
      have := ih (round_num + 1)
        (debateStep gen summarize market_data proposed_action round_num
          debate_rounds st).1
        (debateStep gen summarize market_data proposed_action round_num
          debate_rounds st).2.1
      omega

theorem conductDebateAux_mid_append (gen : Gen) (summarize : Summarizer)
    (market_data : MarketData) (proposed_action : String) :
    ∀ (fuel round_num : Nat) (debate_rounds : List RoundEntry)
      (st : DebateState),
      ∃ tail,
        (conductDebateAux gen summarize market_data proposed_action fuel
          round_num debate_rounds st).2.mid_term_memory =
          st.mid_term_memory ++ tail := by
  intro fuel
  induction fuel with
  | zero =>
    intro round_num debate_rounds st
    exact ⟨[], by simp [conductDebateAux]⟩
  | succ fuel ih =>
    intro round_num debate_rounds st
    rw [conductDebateAux_succ]
    by_cases hc : (debateStep gen summarize market_data proposed_action
        round_num debate_rounds st).2.2
    · rw [if_pos hc]
      dsimp only
      rw [debateStep_converged gen summarize market_data proposed_action
        round_num debate_rounds st
        ((debateStep_converged_iff gen summarize market_data proposed_action
          round_num debate_rounds st).1 hc)]
      exact ⟨[], by simp⟩
    · rw [if_neg hc]
      obtain ⟨tail, htail⟩ := ih (round_num + 1)
        (debateStep gen summarize market_data proposed_action round_num
          debate_rounds st).1
        (debateStep gen summarize market_data proposed_action round_num
          debate_rounds st).2.1
      refine ⟨[summarize (roundArgs gen market_data proposed_action st
        debate_rounds round_num)] ++ tail, ?_⟩
      rw [htail, debateStep_of_not_converged gen summarize market_data
        proposed_action round_num debate_rounds st (by simpa using hc)]
      simp

theorem distinctCount_le_one (l : List String) (c : String)
    (h : ∀ x ∈ l, x = c) : distinctCount l ≤ 1 := by
  unfold distinctCount
  by_contra hlt
  push_neg at hlt
  obtain ⟨a, b, t, hd⟩ : ∃ a b t, l.dedup = a :: b :: t := by
    match hdd : l.dedup with
    | [] => rw [hdd] at hlt; simp at hlt
    | [a] => rw [hdd] at hlt; simp at hlt
    | a :: b :: t => exact ⟨a, b, t, rfl⟩
  have hnd := l.nodup_dedup
  rw [hd, List.nodup_cons] at hnd
  have ha : a = c := h a (List.mem_dedup.1 (by rw [hd]; simp))
  have hb : b = c := h b (List.mem_dedup.1 (by rw [hd]; simp))
  exact hnd.1 (by rw [ha, hb]; simp)

/-! ### Claim theorems -/

/-- C3: for every transcript (any contents, any length) and every market
data value, `_calculate_confidence` returns a value in the closed interval
[0, 1], and the result dict built by `analyze` always carries a
`confidence_score` key holding exactly that value for the returned
transcript. -/
theorem C3_confidence_clamped (debate_rounds : List RoundEntry)
    (market_data : MarketData) (gen : Gen) (summarize : Summarizer)
    (data : AnalyzeInput) (st : DebateState) :
    0 ≤ calculate_confidence debate_rounds market_data ∧
    calculate_confidence debate_rounds market_data ≤ 1 ∧
    (analyze gen summarize data st).1.confidence_score =
      calculate_confidence (analyze gen summarize data st).1.debate_rounds
        data.market_data := by
  refine ⟨?_, ?_, ?_⟩
  · unfold calculate_confidence pyMax pyMin
    split_ifs <;> linarith
  · unfold calculate_confidence pyMax pyMin
    split_ifs <;> linarith
  · unfold analyze
    dsimp only

/-- C10: each pair contributes at most 2 agreements and 2 disagreements, so
the totals are at most 6 each; the value of `_calculate_confidence` before
its final clamp already lies in [0.15, 0.93], and consequently the clamp to
[0, 1] never changes the value. -/
theorem C10_preclamp_bounds (debate_rounds : List RoundEntry)
    (market_data : MarketData) :
    (∀ text_a text_b : String, (check_pairwise text_a text_b).1 ≤ 2 ∧
      (check_pairwise text_a text_b).2 ≤ 2) ∧
    agreementsTotal debate_rounds ≤ 6 ∧
    disagreementsTotal debate_rounds ≤ 6 ∧
    3 / 20 ≤ calculate_confidence_raw debate_rounds market_data ∧
    calculate_confidence_raw debate_rounds market_data ≤ 93 / 100 ∧
    calculate_confidence debate_rounds market_data =
      calculate_confidence_raw debate_rounds market_data := by
  exact ⟨fun a b => ⟨check_pairwise_fst_le a b, check_pairwise_snd_le a b⟩,
    agreementsTotal_le _, disagreementsTotal_le _,
    calculate_confidence_raw_lower debate_rounds market_data,
    calculate_confidence_raw_upper debate_rounds market_data,
    calculate_confidence_eq_raw debate_rounds market_data⟩

/-- C6: the trend branch adds 0.10 for "up", subtracts 0.05 for "down",
subtracts 0.02 for every other value, and a market_data dict with no trend
key is tolerated: the lookup defaults to "flat" and also subtracts 0.02. -/
theorem C6_trend_adjustment (debate_rounds : List RoundEntry)
    (market_data : MarketData) :
    (market_data.trend = some "up" →
      calculate_confidence_raw debate_rounds market_data =
        5 / 10 + 1 / 10 + textContribution debate_rounds) ∧
    (market_data.trend = some "down" →
      calculate_confidence_raw debate_rounds market_data =
        5 / 10 - 5 / 100 + textContribution debate_rounds) ∧
    (∀ s : String, market_data.trend = some s → s ≠ "up" → s ≠ "down" →
      calculate_confidence_raw debate_rounds market_data =
        5 / 10 - 2 / 100 + textContribution debate_rounds) ∧
    (market_data.trend = none →
      market_data.getTrend = "flat" ∧
      calculate_confidence_raw debate_rounds market_data =
        5 / 10 - 2 / 100 + textContribution debate_rounds) := by
  refine ⟨?_, ?_, ?_, ?_⟩
  · intro h
    rw [calculate_confidence_raw_eq]
    unfold trendContribution MarketData.getTrend
    rw [h, Option.getD_some, if_pos rfl]
  · intro h
    rw [calculate_confidence_raw_eq]
    unfold trendContribution MarketData.getTrend
    rw [h, Option.getD_some, if_neg (by decide), if_pos rfl]
    ring
  · intro s hs hup hdown
    rw [calculate_confidence_raw_eq]
    unfold trendContribution MarketData.getTrend
    rw [hs, Option.getD_some, if_neg hup, if_neg hdown]
    ring
  · intro h
    refine ⟨by unfold MarketData.getTrend; rw [h]; rfl, ?_⟩
    rw [calculate_confidence_raw_eq]
    unfold trendContribution MarketData.getTrend
    rw [h, Option.getD_none, if_neg (by decide), if_neg (by decide)]
    ring

/-- C6 witness: a market_data dict with the trend key missing is treated as
"flat" and subtracts 0.02, at the concrete input `mdNoTrend` with an empty
transcript. -/
theorem C6_trend_adjustment_witness :
    MarketData.getTrend mdNoTrend = "flat" ∧
    calculate_confidence_raw [] mdNoTrend =
      5 / 10 - 2 / 100 + textContribution [] := by
  exact (C6_trend_adjustment [] mdNoTrend).2.2.2 rfl

/-- C5: the pairwise signal counts are exactly the described phrase
co-occurrence checks (with the low-risk agreement taking precedence over the
low-risk/high-risk disagreement), the totals enter the confidence as
A×0.05 − D×0.05, and the concrete fundamental/technical example pair yields
two agreements and no disagreement, i.e. a +0.10 delta. -/
theorem C5_pairwise_signals :
    (∀ text_a text_b : String,
      (check_pairwise text_a text_b).1 =
        (if pyIn "mild increase" text_a && pyIn "mild increase" text_b
          then 1 else 0) +
        (if pyIn "low risk" text_a && pyIn "low risk" text_b
          then 1 else 0) ∧
      (check_pairwise text_a text_b).2 =
        (if !(pyIn "low risk" text_a && pyIn "low risk" text_b) &&
            ((pyIn "low risk" text_a && pyIn "high risk" text_b) ||
              (pyIn "high risk" text_a && pyIn "low risk" text_b))
          then 1 else 0) +
        (if (pyIn "downward pressure" text_a &&
              pyIn "upward momentum" text_b) ||
            (pyIn "downward pressure" text_b &&
              pyIn "upward momentum" text_a)
          then 1 else 0)) ∧
    (∀ (debate_rounds : List RoundEntry) (market_data : MarketData),
      calculate_confidence_raw debate_rounds market_data =
        5 / 10 + trendContribution market_data +
          ((agreementsTotal debate_rounds : ℚ) * (5 / 100) -
            (disagreementsTotal debate_rounds : ℚ) * (5 / 100)) +
          (if techBonusApplies debate_rounds then 3 / 100 else 0)) ∧
    check_pairwise "the trend shows mild increase and low risk"
      "we also see mild increase with low risk" = (2, 0) ∧
    (2 : ℚ) * (5 / 100) - 0 * (5 / 100) = 10 / 100 := by
  refine ⟨?_, ?_, by decide, by norm_num⟩
  · intro text_a text_b
    constructor <;>
      (unfold check_pairwise; dsimp only; split_ifs <;> simp_all <;> aesop)
  · intro debate_rounds market_data
    rw [calculate_confidence_raw_eq]
    unfold textContribution
    ring

/-- C9: `_format_previous_rounds` returns the literal sentinel on an empty
transcript; on a non-empty transcript it renders each entry as
`Round R (PERSPECTIVE):\n<text>\n` (perspective upper-cased) joined by
newlines in transcript order; and formatting the same transcript twice gives
identical output. -/
theorem C9_format_previous_rounds (debate_rounds : List RoundEntry) :
    format_previous_rounds [] = "No previous arguments." ∧
    (debate_rounds ≠ [] →
      format_previous_rounds debate_rounds =
        String.intercalate "\n" (debate_rounds.map (fun r =>
          "Round " ++ toString r.round ++ " (" ++ pyUpper r.perspective ++
            "):\n" ++ r.arguments ++ "\n"))) ∧
    format_previous_rounds debate_rounds =
      format_previous_rounds debate_rounds := by
  refine ⟨rfl, fun h => ?_, rfl⟩
  unfold format_previous_rounds formatRoundEntry
  rw [if_neg h]

/-- C9 witness: the rendering at a concrete two-entry transcript, evaluated
to the literal result string. -/
theorem C9_format_previous_rounds_witness :
    tFormat ≠ [] ∧
    format_previous_rounds tFormat =
      "Round 1 (FUNDAMENTAL):\nAlpha\n\nRound 2 (RISK):\nBeta\n" := by
  refine ⟨by decide, ?_⟩
  rw [(C9_format_previous_rounds tFormat).2.1 (by decide)]
  rfl

/-- C7: `_extract_stances` returns one stance per entry in the same order,
classifying each lower-cased text as bullish if it contains "bullish", else
bearish if it contains "bearish", else neutral; a text containing both words
is classified bullish. -/
theorem C7_extract_stances (round_data : List RoundEntry) :
    extract_stances round_data =
      round_data.map (fun r => stanceOf r.arguments) ∧
    (extract_stances round_data).length = round_data.length ∧
    (∀ s : String, pyIn "bullish" (pyLower s) = true →
      stanceOf s = "bullish") ∧
    (∀ s : String, pyIn "bullish" (pyLower s) = false →
      pyIn "bearish" (pyLower s) = true → stanceOf s = "bearish") ∧
    (∀ s : String, pyIn "bullish" (pyLower s) = false →
      pyIn "bearish" (pyLower s) = false → stanceOf s = "neutral") ∧
    (∀ s : String, pyIn "bullish" (pyLower s) = true →
      pyIn "bearish" (pyLower s) = true → stanceOf s = "bullish") := by
  refine ⟨rfl, by simp [extract_stances], ?_, ?_, ?_, ?_⟩
  · intro s h
    simp [stanceOf, h]
  · intro s h1 h2
    simp [stanceOf, h1, h2]
  · intro s h1 h2
    simp [stanceOf, h1, h2]
  · intro s h1 h2
    simp [stanceOf, h1]

/-- C7 witness: the classification at concrete inputs, including a text that
contains both stance words and is classified bullish. -/
theorem C7_extract_stances_witness :
    stanceOf "Leaning BULLISH though somewhat bearish" = "bullish" ∧
    stanceOf "prices will collapse, very Bearish" = "bearish" ∧
    stanceOf "no stance words here" = "neutral" := by
  refine ⟨?_, ?_, ?_⟩
  · exact (C7_extract_stances []).2.2.2.2.2
      "Leaning BULLISH though somewhat bearish" (by decide) (by decide)
  · exact (C7_extract_stances []).2.2.2.1
      "prices will collapse, very Bearish" (by decide) (by decide)
  · exact (C7_extract_stances []).2.2.2.2.1
      "no stance words here" (by decide) (by decide)

/-- C4 counterexample: the two transcripts are permutations of each other,
yet `_calculate_confidence` differs on them — joining each persona's entries
in transcript order makes the phrase detection sensitive to the order of
same-persona entries ("mild" ++ " " ++ "increase" contains "mild increase",
the transposed join does not). -/
theorem C4_order_independence_counterexample :
    List.Perm tSplitPhrase tSplitPhraseSwapped ∧
    calculate_confidence tSplitPhrase mdFlat ≠
      calculate_confidence tSplitPhraseSwapped mdFlat ∧
    calculate_confidence tSplitPhrase mdFlat = 53 / 100 ∧
    calculate_confidence tSplitPhraseSwapped mdFlat = 48 / 100 := by
  have hA1 : agreementsTotal tSplitPhrase = 1 := by decide
  have hD1 : disagreementsTotal tSplitPhrase = 0 := by decide
  have hB1 : techBonusApplies tSplitPhrase = false := by decide
  have hA2 : agreementsTotal tSplitPhraseSwapped = 0 := by decide
  have hD2 : disagreementsTotal tSplitPhraseSwapped = 0 := by decide
  have hB2 : techBonusApplies tSplitPhraseSwapped = false := by decide
  have h1 : calculate_confidence tSplitPhrase mdFlat = 53 / 100 := by
    rw [calculate_confidence_eq_raw, calculate_confidence_raw_eq]
    unfold textContribution trendContribution
    rw [hA1, hD1, hB1, show MarketData.getTrend mdFlat = "flat" from rfl]
    rw [if_neg (by decide : ¬("flat" : String) = "up"),
      if_neg (by decide : ¬("flat" : String) = "down")]
    norm_num
  have h2 : calculate_confidence tSplitPhraseSwapped mdFlat = 48 / 100 := by
    rw [calculate_confidence_eq_raw, calculate_confidence_raw_eq]
    unfold textContribution trendContribution
    rw [hA2, hD2, hB2, show MarketData.getTrend mdFlat = "flat" from rfl]
    rw [if_neg (by decide : ¬("flat" : String) = "up"),
      if_neg (by decide : ¬("flat" : String) = "down")]
    norm_num
  exact ⟨List.Perm.swap _ _ _, by rw [h1, h2]; norm_num, h1, h2⟩

/-- C4 amended: `_calculate_confidence` is a deterministic pure function of
the transcript and market data, and it is invariant under any reordering of
the transcript that preserves each persona's own argument sequence (in
particular any interleaving of the three personas); general permutations
that transpose two entries of the same persona can change the result. -/
theorem C4_confidence_deterministic (t1 t2 : List RoundEntry)
    (market_data : MarketData)
    (hf : personaArguments "fundamental" t1 =
      personaArguments "fundamental" t2)
    (ht : personaArguments "technical" t1 = personaArguments "technical" t2)
    (hr : personaArguments "risk" t1 = personaArguments "risk" t2) :
    calculate_confidence t1 market_data =
      calculate_confidence t1 market_data ∧
    calculate_confidence t1 market_data =
      calculate_confidence t2 market_data := by
  have hf' : personaText "fundamental" t1 = personaText "fundamental" t2 := by
    unfold personaText
    unfold personaArguments at hf
    rw [hf]
  have ht' : personaText "technical" t1 = personaText "technical" t2 := by
    unfold personaText
    unfold personaArguments at ht
    rw [ht]
  have hr' : personaText "risk" t1 = personaText "risk" t2 := by
    unfold personaText
    unfold personaArguments at hr
    rw [hr]
  refine ⟨rfl, ?_⟩
  suffices h : calculate_confidence_raw t1 market_data =
      calculate_confidence_raw t2 market_data by
    unfold calculate_confidence
    rw [h]
  unfold calculate_confidence_raw
  rw [hf', ht', hr']

/-- C4 witness: two transcripts that interleave the personas differently but
keep each persona's own order get the same confidence. -/
theorem C4_confidence_deterministic_witness :
    personaArguments "fundamental" tPair1 =
      personaArguments "fundamental" tPair2 ∧
    calculate_confidence tPair1 mdFlat = calculate_confidence tPair2 mdFlat :=
  ⟨by decide,
   (C4_confidence_deterministic tPair1 tPair2 mdFlat (by decide) (by decide)
     (by decide)).2⟩

/-- C2: the transcript of a debate never exceeds 9 entries (at most 3
rounds of 3 personas); whenever the just-completed round's stance set has at
most one distinct label the loop returns immediately with no further rounds;
and if the three round-1 texts all contain "bullish" (and not "bearish") the
returned transcript has exactly 3 entries. -/
theorem C2_convergence_termination (gen : Gen) (summarize : Summarizer)
    (market_data : MarketData) (proposed_action : String) (st : DebateState) :
    (conduct_debate gen summarize market_data proposed_action st).1.length ≤
      9 ∧
    (∀ (fuel round_num : Nat) (debate_rounds : List RoundEntry)
       (st2 : DebateState),
      distinctCount (extract_stances (conductRound gen market_data
        proposed_action st2 debate_rounds round_num)) ≤ 1 →
      conductDebateAux gen summarize market_data proposed_action (fuel + 1)
          round_num debate_rounds st2 =
        (debate_rounds ++ conductRound gen market_data proposed_action st2
          debate_rounds round_num, st2)) ∧
    ((∀ e ∈ conductRound gen market_data proposed_action st [] 0,
        pyIn "bullish" (pyLower e.arguments) = true ∧
        pyIn "bearish" (pyLower e.arguments) = false) →
      (conduct_debate gen summarize market_data proposed_action
        st).1.length = 3) := by
  refine ⟨?_, ?_, ?_⟩
  · have h := conductDebateAux_length gen summarize market_data
      proposed_action 3 0 [] st
    simpa [conduct_debate, debateRoundsLimit] using h
  · intro fuel round_num debate_rounds st2 h
    exact conductDebateAux_converged gen summarize market_data
      proposed_action fuel round_num debate_rounds st2 h
  · intro h
    have hst : ∀ e ∈ conductRound gen market_data proposed_action st [] 0,
        stanceOf e.arguments = "bullish" := by
      intro e he
      simp [stanceOf, (h e he).1]
    have hconv : distinctCount (extract_stances (conductRound gen
        market_data proposed_action st [] 0)) ≤ 1 := by
      apply distinctCount_le_one _ "bullish"
      intro x hx
      unfold extract_stances at hx
      obtain ⟨e, he, rfl⟩ := List.mem_map.1 hx
      exact hst e he
    have hrun := conductDebateAux_converged gen summarize market_data
      proposed_action 2 0 [] st hconv
    unfold conduct_debate debateRoundsLimit
    rw [hrun]
    simp [conductRound_length]

/-- C2 witness: with a generator whose every answer contains "bullish", the
debate returns a 3-entry transcript. -/
theorem C2_convergence_termination_witness :
    (conduct_debate genBull summConst mdUp "buy 10 shares"
      initialState).1.length = 3 := by
  apply (C2_convergence_termination genBull summConst mdUp "buy 10 shares"
    initialState).2.2
  decide

/-- C8: in a debate that starts from fresh memory, after round 1 completes
without convergence the short-term memory holds exactly the round-1 summary
and the mid-term memory holds exactly that one entry; after round 2 also
completes without convergence the short-term memory holds exactly the
round-2 summary and the mid-term memory holds exactly the two round
summaries in order; and the debate loop continues from exactly these
states. -/
theorem C8_memory_per_round (gen : Gen) (summarize : Summarizer)
    (market_data : MarketData) (proposed_action : String)
    (h1 : (step1 gen summarize market_data proposed_action).2.2 = false) :
    ((step1 gen summarize market_data proposed_action).2.1.short_term_memory
        = [summarize (roundArgs gen market_data proposed_action initialState
            [] 0)] ∧
      (step1 gen summarize market_data proposed_action).2.1.mid_term_memory
        = [summarize (roundArgs gen market_data proposed_action initialState
            [] 0)]) ∧
    ((step2 gen summarize market_data proposed_action).2.2 = false →
      (step2 gen summarize market_data proposed_action).2.1.short_term_memory
          = [summarize (roundArgs gen market_data proposed_action
              (step1 gen summarize market_data proposed_action).2.1
              (step1 gen summarize market_data proposed_action).1 1)] ∧
      (step2 gen summarize market_data proposed_action).2.1.mid_term_memory
          = [summarize (roundArgs gen market_data proposed_action
              initialState [] 0),
             summarize (roundArgs gen market_data proposed_action
              (step1 gen summarize market_data proposed_action).2.1
              (step1 gen summarize market_data proposed_action).1 1)]) ∧
    ((step2 gen summarize market_data proposed_action).2.2 = false →
      conduct_debate gen summarize market_data proposed_action initialState =
        conductDebateAux gen summarize market_data proposed_action 1 2
          (step2 gen summarize market_data proposed_action).1
          (step2 gen summarize market_data proposed_action).2.1) := by
  have e1 := debateStep_of_not_converged gen summarize market_data
    proposed_action 0 [] initialState h1
  have hA : (step1 gen summarize market_data
      proposed_action).2.1.short_term_memory =
        [summarize (roundArgs gen market_data proposed_action initialState
          [] 0)] ∧
      (step1 gen summarize market_data
        proposed_action).2.1.mid_term_memory =
        [summarize (roundArgs gen market_data proposed_action initialState
          [] 0)] := by
    unfold step1
    rw [e1]
    simp [initialState]
  refine ⟨hA, ?_, ?_⟩
  · intro h2
    have e2 := debateStep_of_not_converged gen summarize market_data
      proposed_action 1 (step1 gen summarize market_data proposed_action).1
      (step1 gen summarize market_data proposed_action).2.1 h2
    constructor
    · unfold step2
      rw [e2]
    · unfold step2
      rw [e2]
      dsimp only
      rw [hA.2]
      rfl
  · intro h2
    unfold conduct_debate debateRoundsLimit
    show conductDebateAux gen summarize market_data proposed_action (2 + 1)
      0 [] initialState = _
    rw [conductDebateAux_succ]
    rw [if_neg (by simp only [step1] at h1; simp [h1])]
    show conductDebateAux gen summarize market_data proposed_action (1 + 1)
      1 (step1 gen summarize market_data proposed_action).1
      (step1 gen summarize market_data proposed_action).2.1 = _
    rw [conductDebateAux_succ]
    rw [if_neg (by simp only [step2] at h2; simp [h2])]
    rfl

/-- C8 witness: with the non-converging generator `genM` and the constant
summarizer, the memory states after rounds 1 and 2 are as stated. -/
theorem C8_memory_per_round_witness :
    (step1 genM summConst mdUp "buy 10 shares").2.1.mid_term_memory =
      ["summary"] ∧
    (step1 genM summConst mdUp "buy 10 shares").2.1.short_term_memory =
      ["summary"] ∧
    (step2 genM summConst mdUp "buy 10 shares").2.1.mid_term_memory =
      ["summary", "summary"] ∧
    (step2 genM summConst mdUp "buy 10 shares").2.1.short_term_memory =
      ["summary"] := by
  have h := C8_memory_per_round genM summConst mdUp "buy 10 shares"
    (by decide)
  have h2 := h.2.1 (by decide)
  exact ⟨by rw [h.1.2]; rfl, by rw [h.1.1]; rfl, by rw [h2.2]; rfl,
    by rw [h2.1]; rfl⟩

/-- C1 counterexample: a first `analyze` on a freshly constructed instance
leaves three round summaries in mid-term memory and one in short-term
memory, and a second `analyze` on the same instance starts its debate loop
from that state — its round-1 prompts no longer show the empty-memory
sentinel, so its transcript differs from the first run's. -/
theorem C1_reset_counterexample :
    firstRun.2.mid_term_memory = ["summary", "summary", "summary"] ∧
    firstRun.2.short_term_memory = ["summary"] ∧
    (firstRun.1.debate_rounds.head?.map (fun r => r.arguments) =
      some "Bullish fresh") ∧
    (secondRun.1.debate_rounds.head?.map (fun r => r.arguments) =
      some "Bullish stale") ∧
    secondRun.1.debate_rounds ≠ firstRun.1.debate_rounds := by
  refine ⟨?_, ?_, ?_, ?_, ?_⟩ <;> decide

/-- C1 amended: the memory stores are empty when the instance is
constructed, but `analyze` never resets them — its final state is exactly
the state `_conduct_debate` leaves, and the incoming mid-term memory is
always a prefix of the outgoing one, so a second `analyze` on the same
instance begins with whatever memory the first call accumulated. -/
theorem C1_memory_carried_over (gen : Gen) (summarize : Summarizer)
    (data : AnalyzeInput) (st : DebateState) :
    initialState.mid_term_memory = [] ∧
    initialState.short_term_memory = [] ∧
    (analyze gen summarize data st).2 =
      (conduct_debate gen summarize data.market_data data.proposed_action
        st).2 ∧
    ∃ tail, (analyze gen summarize data st).2.mid_term_memory =
      st.mid_term_memory ++ tail := by
  refine ⟨rfl, rfl, rfl, ?_⟩
  exact conductDebateAux_mid_append gen summarize data.market_data
    data.proposed_action 3 0 [] st

end DebateAgent
